import Mathlib

/-!
Shallow embedding of the useQuery / caching subsystem of the Hydrogen
repository, translated from
src/packages/hydrogen/src/foundation/useQuery/hooks.ts.

The file models:
  - the key hashing and lock-key derivation conventions,
  - the synchronous part of cachedQueryFn (cache read, branch on
    found/stale, scheduling of background tasks),
  - the background regeneration task as a small-step machine whose
    suspension points (each awaited cache operation) are explicit steps,
    interleaved by an arbitrary schedule,
  - the dedup registry (getSuspensePromise / preloadQuery) and the
    useQuery status dispatch.

Collaborators that are not part of the given sources (the SuspensePromise
class, framework/cache, framework/runtime) are modelled from the spec, as
marked in their doc comments.
-/

/-- Modelled from the spec: hooks.ts imports QueryKey from ../../types,
which is not among the sources.  The spec describes a Query Key as a
string or ordered sequence of strings that hashes deterministically; the
claims under study do not depend on the sequence shape, so keys are
modelled as strings. -/
abbrev QueryKey : Type := String

/-- Modelled from the spec: hashKey lives in framework/cache, which is not
among the sources.  The spec requires only a deterministic pure function
from keys to cache-key strings; it is modelled as the identity on string
keys. -/
def hashKey (key : QueryKey) : String := key

/-- Lock-key derivation, from the source line
  const lockKey = `lock-\x7bkey\x7d`;
in cachedQueryFn. -/
def lockKeyOf (key : String) : String := "lock-" ++ key

/-- A value as stored in the Cache Store.  The store is heterogeneous in
the source: regular entries store the query output, while the
regeneration lock is stored as the boolean true via the same
setItemInCache. -/
inductive JsVal (V : Type) where
  | v (x : V)
  | boolean (b : Bool)
deriving DecidableEq

/-- Modelled from the spec: the Cache Store (framework/cache) is an
external collaborator, specified at its boundary as get/set/delete by key
with freshness metadata.  An entry pairs the stored value with the
boolean answer isStale would give for its metadata. -/
def Store (V : Type) : Type := String → Option (JsVal V × Bool)

/-- Modelled from the spec: isStale lives in framework/cache.  The
controller only branches on its boolean result, which the model stores
directly as the metadata. -/
def isStale (response : Bool) : Bool := response

/-- Modelled from the spec: getItemFromCache of framework/cache, a read of
the Cache Store at a key. -/
def getItemFromCache (store : Store V) (key : String) : Option (JsVal V × Bool) :=
  store key

/-- Modelled from the spec: setItemInCache of framework/cache; a freshly
written entry is not stale. -/
def setItemInCache (store : Store V) (key : String) (val : JsVal V) : Store V :=
  fun k => if k = key then some (val, false) else store k

/-- Modelled from the spec: deleteItemFromCache of framework/cache. -/
def deleteItemFromCache (store : Store V) (key : String) : Store V :=
  fun k => if k = key then none else store k

/-- A cache-store operation, recorded to trace what the synchronous part
of cachedQueryFn touches. -/
inductive CacheOp where
  | get (key : String)
deriving DecidableEq

/-- A background task handed to runDelayedFunction by cachedQueryFn:
either the fire-and-forget write of a newly generated output (miss path)
or a stale regeneration (stale path).  The regeneration task carries the
outcome the captured queryFn will produce when awaited. -/
inductive BgTask (E V : Type) where
  | writeNew (key : String) (val : JsVal V)
  | regen (key : String) (fetch : Except E V)

/-- Result of the synchronous part of cachedQueryFn: what the caller gets
(or the propagated error), the background tasks scheduled via
runDelayedFunction, how many times queryFn was invoked synchronously, and
the cache operations performed synchronously. -/
structure SyncResult (E V : Type) where
  result : Except E (JsVal V)
  tasks : List (BgTask E V)
  fnCalls : Nat
  trace : List CacheOp

/-- The synchronous part of cachedQueryFn from hooks.ts: read the cache;
if found and not stale return the output; if found and stale return the
stale output and schedule a background regeneration; if not found await
queryFn (whose outcome is the fetch argument), schedule the
fire-and-forget cache write on success, and return or propagate. -/
def cachedQueryFn (store : Store V) (key : String) (fetch : Except E V) :
    SyncResult E V :=
  match getItemFromCache store key with
  | some (output, response) =>
      if isStale response then
        { result := Except.ok output
          tasks := [BgTask.regen key fetch]
          fnCalls := 0
          trace := [CacheOp.get key] }
      else
        { result := Except.ok output
          tasks := []
          fnCalls := 0
          trace := [CacheOp.get key] }
  | none =>
      match fetch with
      | Except.ok x =>
          { result := Except.ok (JsVal.v x)
            tasks := [BgTask.writeNew key (JsVal.v x)]
            fnCalls := 1
            trace := [CacheOp.get key] }
      | Except.error e =>
          { result := Except.error e
            fnCalls := 1
            tasks := []
            trace := [CacheOp.get key] }

/-- Program counter of one background regeneration task, one phase per
segment between awaited cache operations in the runDelayedFunction
closure of cachedQueryFn:
  checkLock  : about to await getItemFromCache(lockKey);
  setLock    : lock observed absent, about to await setItemInCache(lockKey, true);
  fetching   : about to await generateNewOutput();
  writeBack  : queryFn succeeded, about to await setItemInCache(key, output);
  unlock     : about to await deleteItemFromCache(lockKey) (the finally);
  done       : task finished (including the early return when the lock exists). -/
inductive RegenPhase (E V : Type) where
  | checkLock
  | setLock
  | fetching
  | writeBack (x : V)
  | unlock
  | done

/-- One scheduled background regeneration task: its cache key, the outcome
its captured queryFn will produce, and its current phase. -/
structure RegenTask (E V : Type) where
  key : String
  fetch : Except E V
  phase : RegenPhase E V

/-- State of the cooperative machine running background regeneration
tasks: the shared Cache Store, the scheduled tasks, and the total number
of queryFn invocations performed by the tasks. -/
structure RegenState (E V : Type) where
  store : Store V
  tasks : List (RegenTask E V)
  fnCalls : Nat

/-- Replace the phase of task i. -/
def setTaskPhase : List (RegenTask E V) → Nat → RegenPhase E V → List (RegenTask E V)
  | [], _, _ => []
  | t :: ts, 0, p => { t with phase := p } :: ts
  | t :: ts, n + 1, p => t :: setTaskPhase ts n p

/-- One cooperative step of task i, translating the runDelayedFunction
closure of cachedQueryFn phase by phase: check the lock and return early
if it exists; otherwise set the lock; await queryFn (counted, and the
try/catch routes a failure straight to the finally); write the fresh
output; delete the lock in the finally. -/
def regenStep (s : RegenState E V) (i : Nat) : RegenState E V :=
  match s.tasks.get? i with
  | none => s
  | some t =>
      match t.phase with
      | RegenPhase.checkLock =>
          if (getItemFromCache s.store (lockKeyOf t.key)).isSome then
            { s with tasks := setTaskPhase s.tasks i RegenPhase.done }
          else
            { s with tasks := setTaskPhase s.tasks i RegenPhase.setLock }
      | RegenPhase.setLock =>
          { s with
            store := setItemInCache s.store (lockKeyOf t.key) (JsVal.boolean true)
            tasks := setTaskPhase s.tasks i RegenPhase.fetching }
      | RegenPhase.fetching =>
          { s with
            fnCalls := s.fnCalls + 1
            tasks := setTaskPhase s.tasks i
              (match t.fetch with
               | Except.ok x => RegenPhase.writeBack x
               | Except.error _ => RegenPhase.unlock) }
      | RegenPhase.writeBack x =>
          { s with
            store := setItemInCache s.store t.key (JsVal.v x)
            tasks := setTaskPhase s.tasks i RegenPhase.unlock }
      | RegenPhase.unlock =>
          { s with
            store := deleteItemFromCache s.store (lockKeyOf t.key)
            tasks := setTaskPhase s.tasks i RegenPhase.done }
      | RegenPhase.done => s

/-- Run the regeneration machine under a schedule: a list of task indices,
each entry performing one cooperative step of that task. -/
def regenRun (s : RegenState E V) (sched : List Nat) : RegenState E V :=
  sched.foldl regenStep s

/-- Turn a scheduled BgTask.regen into a runnable regeneration task, as
runDelayedFunction receives it (starting at the lock check). -/
def spawnRegen (key : String) (fetch : Except E V) : RegenTask E V :=
  { key := key, fetch := fetch, phase := RegenPhase.checkLock }

/-- Modelled from the spec: the SuspensePromise class (the Suspense
Bridge) is imported from ./SuspensePromise, which is not among the
sources.  Per the spec it exposes a three-state status, the underlying
pending operation handle, the settled result or error, start timestamp,
completion duration, and an optional maximum-age value.  The result field
is empty until the computation settles; the id identifies the bridge
instance (and its underlying pending handle), so that distinct
constructions are distinguishable. -/
structure SuspensePromise (R : Type) where
  status : Nat
  result : Option R
  maxAge : Nat
  queryDuration : Nat
  startTimestamp : Nat
  id : Nat

/-- Modelled from the spec: the PENDING status constant of the
SuspensePromise class (initial state). -/
def SuspensePromise.PENDING : Nat := 0

/-- Modelled from the spec: the SUCCESS status constant of the
SuspensePromise class (terminal state on resolution). -/
def SuspensePromise.SUCCESS : Nat := 1

/-- Modelled from the spec: the ERROR status constant of the
SuspensePromise class (terminal state on rejection). -/
def SuspensePromise.ERROR : Nat := 2

/-- Modelled from the spec: constructing a SuspensePromise immediately
begins the wrapped computation (non-blocking) with status PENDING and no
settled result; the optional maximum-age from the cache options is
recorded (0 when absent). -/
def newSuspensePromise (id : Nat) (maxAge : Nat) : SuspensePromise R :=
  { status := SuspensePromise.PENDING
    result := none
    maxAge := maxAge
    queryDuration := 0
    startTimestamp := 0
    id := id }

/-- The dedup registry state: the module-level suspensePromises map of
hooks.ts, plus a counter supplying fresh bridge ids (each construction of
a SuspensePromise starts one new computation, so the counter also counts
producer-factory executions). -/
structure RegistryState (R : Type) where
  entries : String → Option (SuspensePromise R)
  nextId : Nat

/-- getSuspensePromise from hooks.ts: hash the key, look it up in the
suspensePromises map; on a hit return the stored bridge and leave the map
untouched; on a miss construct a new SuspensePromise (which starts the
computation), insert it under the cache key and return it. -/
def getSuspensePromise (st : RegistryState R) (key : QueryKey) (maxAge : Nat) :
    SuspensePromise R × RegistryState R :=
  let cacheKey := hashKey key
  match st.entries cacheKey with
  | some sp => (sp, st)
  | none =>
      let sp : SuspensePromise R := newSuspensePromise st.nextId maxAge
      (sp,
        { entries := fun k => if k = cacheKey then some sp else st.entries k
          nextId := st.nextId + 1 })

/-- preloadQuery from hooks.ts: route through getSuspensePromise for its
effect on the registry and discard the bridge. -/
def preloadQuery (st : RegistryState R) (key : QueryKey) (maxAge : Nat) :
    RegistryState R :=
  (getSuspensePromise st key maxAge).2

/-- What a useQuery call does for its caller: suspend by throwing the
pending handle, throw the stored error, return the stored result, or hit
the final fall-through throw. -/
inductive UseQueryOutcome (R : Type) where
  | suspended (promiseId : Nat)
  | threw (err : Option R)
  | returned (val : Option R)
  | fatal

/-- useQuery from hooks.ts: obtain the bridge via getSuspensePromise and
dispatch on its status.  PENDING throws the pending promise handle; ERROR
throws the stored result; SUCCESS first cleans up the dedup registry
(when getCache() yields a runtime cache, schedule a delayed removal after
maxAge milliseconds, recorded as a (cacheKey, delay) pair; otherwise
delete the entry immediately) and returns the stored result; anything
else reaches the final fall-through throw.  hasCache is the truthiness of
getCache() (framework/runtime, not among the sources). -/
def useQuery (st : RegistryState R) (key : QueryKey) (maxAge : Nat)
    (hasCache : Bool) :
    UseQueryOutcome R × RegistryState R × List (String × Nat) :=
  let cacheKey := hashKey key
  let pr := getSuspensePromise st key maxAge
  let sp := pr.1
  let st1 := pr.2
  if sp.status = SuspensePromise.PENDING then
    (UseQueryOutcome.suspended sp.id, st1, [])
  else if sp.status = SuspensePromise.ERROR then
    (UseQueryOutcome.threw sp.result, st1, [])
  else if sp.status = SuspensePromise.SUCCESS then
    if hasCache then
      (UseQueryOutcome.returned sp.result, st1, [(cacheKey, sp.maxAge)])
    else
      (UseQueryOutcome.returned sp.result,
        { st1 with entries := fun k => if k = cacheKey then none else st1.entries k },
        [])
  else
    (UseQueryOutcome.fatal, st1, [])

/-- A lock key is strictly longer than the key it derives from, hence
never equal to it. -/
theorem lockKeyOf_ne (k : String) : lockKeyOf k ≠ k := by
  intro h
  have h2 := congrArg String.length h
  simp [lockKeyOf, String.length_append] at h2
  exact absurd h2 (by decide)

/-- Symmetric form of lockKeyOf_ne, convenient for simp. -/
theorem ne_lockKeyOf (k : String) : k ≠ lockKeyOf k :=
  fun h => lockKeyOf_ne k h.symm

/-- C8 counterexample: the claim that a lock key is never equal to any
regular Cache Key used for stored outputs fails, because query keys are
arbitrary strings.  The key "lock-products" is a legitimate query key
under which cachedQueryFn itself schedules a stored output write, and it
is exactly the lock key derived from "products". -/
theorem lockKey_collision_counterexample :
    lockKeyOf "products" = "lock-products" ∧
    (cachedQueryFn (fun _ => none) "lock-products"
        (Except.ok 37 : Except String Nat)).tasks =
      [BgTask.writeNew (lockKeyOf "products") (JsVal.v 37)] := by
  constructor
  · rfl
  · simp [cachedQueryFn, getItemFromCache, lockKeyOf]

/-- C8 amended: the lock key is derived by the fixed prefixing convention
lock-<key>; it never equals the key it derives from, and it never equals
any cache key that does not itself start with the lock- prefix (a
collision requires the colliding regular key to carry the lock- prefix
literally). -/
theorem lockKeyOf_prefixing (k k2 : String) :
    lockKeyOf k = "lock-" ++ k ∧
    lockKeyOf k ≠ k ∧
    ((¬ ∃ r, k2 = "lock-" ++ r) → lockKeyOf k ≠ k2) := by
  refine ⟨rfl, lockKeyOf_ne k, ?_⟩
  intro hno heq
  exact hno ⟨k, heq.symm⟩

/-- Witness for lockKeyOf_prefixing at concrete keys. -/
theorem lockKeyOf_prefixing_witness :
    lockKeyOf "products" ≠ "products" ∧ lockKeyOf "products" ≠ "shop" := by
  refine ⟨(lockKeyOf_prefixing "products" "shop").2.1,
          (lockKeyOf_prefixing "products" "shop").2.2 ?_⟩
  rintro ⟨r, hr⟩
  have h2 := congrArg String.length hr
  rw [String.length_append] at h2
  rw [show ("shop".length : Nat) = 4 from rfl,
      show ("lock-".length : Nat) = 5 from rfl] at h2
  omega

/-- C4: on a cache miss, cachedQueryFn invokes queryFn exactly once, the
caller awaits it; on success the returned value is the resolved value and
the write of the new output is handed to runDelayedFunction
(fire-and-forget); on failure the error propagates to the caller and no
write is scheduled. -/
theorem cachedQueryFn_miss (store : Store V) (key : String)
    (fetch : Except E V) (h : store key = none) :
    (cachedQueryFn store key fetch).fnCalls = 1 ∧
    (∀ x, fetch = Except.ok x →
        (cachedQueryFn store key fetch).result = Except.ok (JsVal.v x) ∧
        (cachedQueryFn store key fetch).tasks =
          [BgTask.writeNew key (JsVal.v x)]) ∧
    (∀ e, fetch = Except.error e →
        (cachedQueryFn store key fetch).result = Except.error e ∧
        (cachedQueryFn store key fetch).tasks = []) := by
  cases fetch with
  | ok x => simp [cachedQueryFn, getItemFromCache, h]
  | error e => simp [cachedQueryFn, getItemFromCache, h]

/-- Witness for cachedQueryFn_miss on the empty store. -/
theorem cachedQueryFn_miss_witness :
    (cachedQueryFn (fun _ => none) "k"
        (Except.ok 5 : Except String Nat)).fnCalls = 1 ∧
    (cachedQueryFn (fun _ => none) "k"
        (Except.ok 5 : Except String Nat)).result = Except.ok (JsVal.v 5) ∧
    (cachedQueryFn (fun _ => none) "k"
        (Except.ok 5 : Except String Nat)).tasks =
      [BgTask.writeNew "k" (JsVal.v 5)] := by
  have h := cachedQueryFn_miss (fun _ => none) "k"
    (Except.ok 5 : Except String Nat) rfl
  exact ⟨h.1, (h.2.1 5 rfl).1, (h.2.1 5 rfl).2⟩

/-- C5: on a non-stale cache hit, cachedQueryFn returns the cached output
immediately, never invokes queryFn, schedules no background task, and its
only cache access is the single read of the entry. -/
theorem cachedQueryFn_fresh_hit (store : Store V) (key : String)
    (w : JsVal V) (fetch : Except E V) (h : store key = some (w, false)) :
    cachedQueryFn store key fetch =
      { result := Except.ok w
        tasks := []
        fnCalls := 0
        trace := [CacheOp.get key] } := by
  simp [cachedQueryFn, getItemFromCache, h, isStale]

/-- Witness for cachedQueryFn_fresh_hit on a singleton store. -/
theorem cachedQueryFn_fresh_hit_witness :
    cachedQueryFn
        (fun k => if k = "k" then some (JsVal.v (1 : Nat), false) else none)
        "k" (Except.ok 5 : Except String Nat) =
      { result := Except.ok (JsVal.v 1)
        tasks := []
        fnCalls := 0
        trace := [CacheOp.get "k"] } :=
  cachedQueryFn_fresh_hit
    (fun k => if k = "k" then some (JsVal.v (1 : Nat), false) else none)
    "k" (JsVal.v 1) (Except.ok 5) (by simp)

/-- C3: a background regeneration that found the lock absent runs to
completion in every outcome: the task reaches its final phase rather than
propagating an error (a queryFn failure is caught and routed to the
finally), the regeneration lock is absent after the run whether queryFn
succeeded or failed, and on failure no value is written under the key, so
the previously cached entry is unchanged. -/
theorem regen_releases_lock_and_preserves_cache_on_failure
    (store : Store V) (key : String) (fetch : Except E V)
    (hlock : store (lockKeyOf key) = none) :
    (regenRun { store := store, tasks := [spawnRegen key fetch], fnCalls := 0 }
        [0, 0, 0, 0, 0]).tasks =
      [{ key := key, fetch := fetch, phase := RegenPhase.done }] ∧
    (regenRun { store := store, tasks := [spawnRegen key fetch], fnCalls := 0 }
        [0, 0, 0, 0, 0]).store (lockKeyOf key) = none ∧
    (∀ e, fetch = Except.error e →
        (regenRun { store := store, tasks := [spawnRegen key fetch], fnCalls := 0 }
            [0, 0, 0, 0, 0]).store key = store key) := by
  cases fetch with
  | ok x =>
      simp [regenRun, regenStep, spawnRegen, setTaskPhase, getItemFromCache,
        setItemInCache, deleteItemFromCache, hlock]
  | error e =>
      simp [regenRun, regenStep, spawnRegen, setTaskPhase, getItemFromCache,
        setItemInCache, deleteItemFromCache, hlock, ne_lockKeyOf key]

/-- Witness for regen_releases_lock_and_preserves_cache_on_failure: a
failing regeneration over a store holding a stale entry leaves the entry
as it was and the lock absent. -/
theorem regen_failure_witness :
    (regenRun
        { store := fun k => if k = "k" then some (JsVal.v (1 : Nat), true) else none
          tasks := [spawnRegen "k" (Except.error "boom" : Except String Nat)]
          fnCalls := 0 }
        [0, 0, 0, 0, 0]).store (lockKeyOf "k") = none ∧
    (regenRun
        { store := fun k => if k = "k" then some (JsVal.v (1 : Nat), true) else none
          tasks := [spawnRegen "k" (Except.error "boom" : Except String Nat)]
          fnCalls := 0 }
        [0, 0, 0, 0, 0]).store "k" =
      (fun k => if k = "k" then some (JsVal.v (1 : Nat), true) else none) "k" := by
  have h := regen_releases_lock_and_preserves_cache_on_failure
    (fun k => if k = "k" then some (JsVal.v (1 : Nat), true) else none)
    "k" (Except.error "boom" : Except String Nat) (by simp [lockKeyOf])
  exact ⟨h.2.1, h.2.2 "boom" rfl⟩

/-- C2: the code invokes queryFn twice within one staleness window.  A
stale read schedules a regeneration task; two stale reads arriving before
any regeneration completes schedule two such tasks, and running them (here
fully sequentially, the most favourable schedule for the lock) performs
two queryFn invocations: the first task deletes the lock in its finally,
so the second task finds the lock absent and regenerates again. -/
theorem stale_regen_double_fetch :
    (cachedQueryFn
        (fun k => if k = "k" then some (JsVal.v (1 : Nat), true) else none)
        "k" (Except.ok 2 : Except String Nat)).tasks =
      [BgTask.regen "k" (Except.ok 2)] ∧
    (regenRun
        { store := fun k => if k = "k" then some (JsVal.v (1 : Nat), true) else none
          tasks := [spawnRegen "k" (Except.ok 2 : Except String Nat),
                    spawnRegen "k" (Except.ok 2 : Except String Nat)]
          fnCalls := 0 }
        [0, 0, 0, 0, 0, 1, 1, 1, 1, 1]).fnCalls = 2 := by
  constructor
  · simp [cachedQueryFn, getItemFromCache, isStale]
  · rfl

/-- C1: getSuspensePromise is the dedup point.  If the registry already
holds a bridge for the cache key it is returned unchanged with the state
untouched (in particular nextId, which counts constructions and thus
started computations, does not move); otherwise exactly one new bridge is
constructed, inserted under the cache key (other keys untouched), and
returned, and a second call for an equal key then returns that same
bridge without further construction.  preloadQuery routes through the
same function. -/
theorem getSuspensePromise_dedup (st : RegistryState R) (key : QueryKey)
    (maxAge : Nat) :
    (∀ b, st.entries (hashKey key) = some b →
        getSuspensePromise st key maxAge = (b, st)) ∧
    (st.entries (hashKey key) = none →
        (getSuspensePromise st key maxAge).2.entries (hashKey key) =
          some (getSuspensePromise st key maxAge).1 ∧
        (getSuspensePromise st key maxAge).1 =
          newSuspensePromise st.nextId maxAge ∧
        (getSuspensePromise st key maxAge).2.nextId = st.nextId + 1 ∧
        (∀ k, k ≠ hashKey key →
            (getSuspensePromise st key maxAge).2.entries k = st.entries k) ∧
        getSuspensePromise (getSuspensePromise st key maxAge).2 key maxAge =
          ((getSuspensePromise st key maxAge).1,
           (getSuspensePromise st key maxAge).2)) ∧
    preloadQuery st key maxAge = (getSuspensePromise st key maxAge).2 := by
  refine ⟨?_, ?_, rfl⟩
  · intro b hb
    simp [getSuspensePromise, hb]
  · intro h
    refine ⟨?_, ?_, ?_, ?_, ?_⟩ <;>
      simp [getSuspensePromise, h]
    intro k hk
    simp [hk]

/-- Witness for getSuspensePromise_dedup: creation then dedup on the
empty registry. -/
theorem getSuspensePromise_dedup_witness :
    (getSuspensePromise
        ({ entries := fun _ => none, nextId := 0 } : RegistryState Nat)
        "q" 7).2.entries (hashKey "q") =
      some (getSuspensePromise
        ({ entries := fun _ => none, nextId := 0 } : RegistryState Nat)
        "q" 7).1 ∧
    (getSuspensePromise
        ({ entries := fun _ => none, nextId := 0 } : RegistryState Nat)
        "q" 7).2.nextId = 1 ∧
    getSuspensePromise
        (getSuspensePromise
          ({ entries := fun _ => none, nextId := 0 } : RegistryState Nat)
          "q" 7).2 "q" 7 =
      ((getSuspensePromise
          ({ entries := fun _ => none, nextId := 0 } : RegistryState Nat)
          "q" 7).1,
       (getSuspensePromise
          ({ entries := fun _ => none, nextId := 0 } : RegistryState Nat)
          "q" 7).2) := by
  have h := (getSuspensePromise_dedup
    ({ entries := fun _ => none, nextId := 0 } : RegistryState Nat) "q" 7).2.1 rfl
  exact ⟨h.1, h.2.2.1, h.2.2.2.2⟩

/-- C6: useQuery dispatches on the status of the bridge obtained from the
dedup registry: PENDING throws the pending promise handle, ERROR throws
the stored error, SUCCESS returns the stored result. -/
theorem useQuery_dispatch (st : RegistryState R) (key : QueryKey)
    (maxAge : Nat) (hasCache : Bool) :
    ((getSuspensePromise st key maxAge).1.status = SuspensePromise.PENDING →
        (useQuery st key maxAge hasCache).1 =
          UseQueryOutcome.suspended (getSuspensePromise st key maxAge).1.id) ∧
    ((getSuspensePromise st key maxAge).1.status = SuspensePromise.ERROR →
        (useQuery st key maxAge hasCache).1 =
          UseQueryOutcome.threw (getSuspensePromise st key maxAge).1.result) ∧
    ((getSuspensePromise st key maxAge).1.status = SuspensePromise.SUCCESS →
        (useQuery st key maxAge hasCache).1 =
          UseQueryOutcome.returned (getSuspensePromise st key maxAge).1.result) := by
  refine ⟨?_, ?_, ?_⟩ <;> intro h <;>
    cases hasCache <;>
      simp [useQuery, h, SuspensePromise.PENDING, SuspensePromise.ERROR,
        SuspensePromise.SUCCESS]

/-- Witness for useQuery_dispatch: a registry holding an ERROR bridge
makes useQuery throw the stored error. -/
theorem useQuery_dispatch_witness :
    (useQuery
        ({ entries := fun k =>
              if k = "q" then
                some { status := SuspensePromise.ERROR, result := some 3,
                       maxAge := 0, queryDuration := 0, startTimestamp := 0,
                       id := 5 }
              else none
           nextId := 9 } : RegistryState Nat)
        "q" 0 true).1 = UseQueryOutcome.threw (some 3) :=
  (useQuery_dispatch
    ({ entries := fun k =>
          if k = "q" then
            some { status := SuspensePromise.ERROR, result := some 3,
                   maxAge := 0, queryDuration := 0, startTimestamp := 0,
                   id := 5 }
          else none
       nextId := 9 } : RegistryState Nat)
    "q" 0 true).2.1 (by simp [getSuspensePromise, hashKey])

/-- C7: on a SUCCESS read, useQuery cleans up the dedup registry before
returning the result.  With a runtime cache present it leaves the
registry untouched for now and schedules one delayed removal of the cache
key with delay equal to the bridge's maxAge; with no runtime cache it
deletes the entry immediately (other keys untouched) and schedules
nothing. -/
theorem useQuery_success_cleanup (st : RegistryState R) (key : QueryKey)
    (maxAge : Nat)
    (h : (getSuspensePromise st key maxAge).1.status = SuspensePromise.SUCCESS) :
    (useQuery st key maxAge true =
        (UseQueryOutcome.returned (getSuspensePromise st key maxAge).1.result,
         (getSuspensePromise st key maxAge).2,
         [(hashKey key, (getSuspensePromise st key maxAge).1.maxAge)])) ∧
    ((useQuery st key maxAge false).1 =
        UseQueryOutcome.returned (getSuspensePromise st key maxAge).1.result ∧
     (useQuery st key maxAge false).2.1.entries (hashKey key) = none ∧
     (∀ k, k ≠ hashKey key →
        (useQuery st key maxAge false).2.1.entries k =
          (getSuspensePromise st key maxAge).2.entries k) ∧
     (useQuery st key maxAge false).2.2 = []) := by
  refine ⟨?_, ?_, ?_, ?_, ?_⟩ <;>
    simp [useQuery, h, SuspensePromise.PENDING, SuspensePromise.ERROR,
      SuspensePromise.SUCCESS]
  intro k hk
  simp [hk]

/-- Witness for useQuery_success_cleanup: a registry holding a SUCCESS
bridge, read without a runtime cache, is emptied at that key immediately
and schedules no delayed removal. -/
theorem useQuery_success_cleanup_witness :
    (useQuery
        ({ entries := fun k =>
              if k = "q" then
                some { status := SuspensePromise.SUCCESS, result := some 4,
                       maxAge := 60, queryDuration := 0, startTimestamp := 0,
                       id := 5 }
              else none
           nextId := 9 } : RegistryState Nat)
        "q" 0 false).2.1.entries (hashKey "q") = none ∧
    (useQuery
        ({ entries := fun k =>
              if k = "q" then
                some { status := SuspensePromise.SUCCESS, result := some 4,
                       maxAge := 60, queryDuration := 0, startTimestamp := 0,
                       id := 5 }
              else none
           nextId := 9 } : RegistryState Nat)
        "q" 0 false).2.2 = [] := by
  have h := useQuery_success_cleanup
    ({ entries := fun k =>
          if k = "q" then
            some { status := SuspensePromise.SUCCESS, result := some 4,
                   maxAge := 60, queryDuration := 0, startTimestamp := 0,
                   id := 5 }
          else none
       nextId := 9 } : RegistryState Nat)
    "q" 0 (by simp [getSuspensePromise, hashKey])
  exact ⟨h.2.2.1, h.2.2.2.2⟩

/-- C9: whenever the bridge status is one of PENDING, SUCCESS or ERROR,
the final fall-through throw of useQuery is unreachable: the call
suspends, returns, or throws the stored error. -/
theorem useQuery_fallthrough_unreachable (st : RegistryState R)
    (key : QueryKey) (maxAge : Nat) (hasCache : Bool)
    (h : (getSuspensePromise st key maxAge).1.status = SuspensePromise.PENDING ∨
         (getSuspensePromise st key maxAge).1.status = SuspensePromise.SUCCESS ∨
         (getSuspensePromise st key maxAge).1.status = SuspensePromise.ERROR) :
    (useQuery st key maxAge hasCache).1 ≠ UseQueryOutcome.fatal := by
  rcases h with h | h | h <;> cases hasCache <;>
    simp [useQuery, h, SuspensePromise.PENDING, SuspensePromise.ERROR,
      SuspensePromise.SUCCESS]

/-- Witness for useQuery_fallthrough_unreachable: on the empty registry a
fresh bridge is PENDING and the call does not reach the fall-through. -/
theorem useQuery_fallthrough_unreachable_witness :
    (useQuery ({ entries := fun _ => none, nextId := 0 } : RegistryState Nat)
        "q" 0 false).1 ≠ UseQueryOutcome.fatal :=
  useQuery_fallthrough_unreachable
    ({ entries := fun _ => none, nextId := 0 } : RegistryState Nat)
    "q" 0 false (Or.inl (by simp [getSuspensePromise, hashKey, newSuspensePromise]))

/-- C10: when the registry holds an ERROR bridge for the key, useQuery
throws the stored error, leaves the registry exactly as it was (no
removal, no new construction, nothing scheduled), reuses that same
bridge, and therefore a subsequent call for an equal key throws the same
stored error again. -/
theorem useQuery_error_sticky (st : RegistryState R) (key : QueryKey)
    (maxAge : Nat) (hasCache : Bool) (b : SuspensePromise R)
    (hb : st.entries (hashKey key) = some b)
    (he : b.status = SuspensePromise.ERROR) :
    useQuery st key maxAge hasCache = (UseQueryOutcome.threw b.result, st, []) ∧
    getSuspensePromise st key maxAge = (b, st) ∧
    useQuery ((useQuery st key maxAge hasCache).2.1) key maxAge hasCache =
      (UseQueryOutcome.threw b.result, st, []) := by
  have hget : getSuspensePromise st key maxAge = (b, st) := by
    simp [getSuspensePromise, hb]
  have hone : useQuery st key maxAge hasCache =
      (UseQueryOutcome.threw b.result, st, []) := by
    simp [useQuery, hget, he, SuspensePromise.PENDING, SuspensePromise.ERROR]
  refine ⟨hone, hget, ?_⟩
  rw [hone]
  exact hone

/-- Witness for useQuery_error_sticky: two consecutive reads of an ERROR
bridge both throw the stored error and the registry never changes. -/
theorem useQuery_error_sticky_witness :
    useQuery
        ({ entries := fun k =>
              if k = "q" then
                some { status := SuspensePromise.ERROR, result := some 3,
                       maxAge := 0, queryDuration := 0, startTimestamp := 0,
                       id := 5 }
              else none
           nextId := 9 } : RegistryState Nat)
        "q" 0 false =
      (UseQueryOutcome.threw (some 3),
       ({ entries := fun k =>
             if k = "q" then
               some { status := SuspensePromise.ERROR, result := some 3,
                      maxAge := 0, queryDuration := 0, startTimestamp := 0,
                      id := 5 }
             else none
          nextId := 9 } : RegistryState Nat), []) := by
  have h := useQuery_error_sticky
    ({ entries := fun k =>
          if k = "q" then
            some { status := SuspensePromise.ERROR, result := some 3,
                   maxAge := 0, queryDuration := 0, startTimestamp := 0,
                   id := 5 }
          else none
       nextId := 9 } : RegistryState Nat)
    "q" 0 false
    ({ status := SuspensePromise.ERROR, result := some 3, maxAge := 0,
       queryDuration := 0, startTimestamp := 0, id := 5 })
    (by simp [hashKey]) rfl
  exact h.1
